import Mathlib

/-!
Shallow embedding of the payment-correlation pipeline of lumedot-solana-demo.

Sources embedded here:
* `src/utils/price_check.py` — `create_sub_session`, `create_title_session`
  (session encoding: pricing choice, USD→SOL conversion, memo construction);
* `src/utils/helius_listener.py` — `HeliusListener.handle_signature`
  (memo parsing, merchant balance delta, tolerance check, completion
  mutation construction) and the connection-manager loops
  (`heartbeat`, `start`, `_connect_and_listen`).

Python machine behaviour is modelled with exact types: monetary values are
rationals (`ℚ`), balances are integers (`ℤ`), strings are Lean `String`s
(lists of characters, matching CPython `str` semantics for the ASCII data
appearing here).  Fallible paths return explicit outcome constructors;
the blanket `except Exception` at the bottom of `handle_signature` makes
the embedded handler a total function into an outcome type.
-/

/-- Characters treated as whitespace by CPython's `str.split()` (ASCII range:
space, tab, newline, carriage return, vertical tab, form feed). -/
def pyIsSpace (c : Char) : Bool :=
  c == ' ' || c == '\t' || c == '\n' || c == '\r' || c == '\x0b' || c == '\x0c'

/-- Worker for `pySplit`: walks the character list, accumulating the current
token in reverse; whitespace ends the current token (if nonempty), and runs
of whitespace produce no empty tokens — exactly CPython `str.split()` with
no separator argument. -/
def pySplitAux : List Char → List Char → List String
  | [], acc => if acc.isEmpty then [] else [String.mk acc.reverse]
  | c :: cs, acc =>
    if pyIsSpace c then
      (if acc.isEmpty then pySplitAux cs []
       else String.mk acc.reverse :: pySplitAux cs [])
    else pySplitAux cs (c :: acc)

/-- CPython `s.split()` (no argument): split on runs of whitespace, dropping
empty tokens.  Used by `handle_signature` line 230: `parts = memo_text.split()`. -/
def pySplit (s : String) : List String :=
  pySplitAux s.data []

/-- Worker for `charsPrefixOf`. -/
def charsPrefixOf : List Char → List Char → Bool
  | [], _ => true
  | _ :: _, [] => false
  | a :: as, b :: bs => if a = b then charsPrefixOf as bs else false

/-- CPython `s.startswith(pre)`. -/
def pyStartsWith (s pre : String) : Bool :=
  charsPrefixOf pre.data s.data

/-- CPython `s.lower()` for the ASCII data appearing in this code base:
lowercase every character. -/
def pyToLower (s : String) : String :=
  String.mk (s.data.map Char.toLower)

/-- Worker for `afterFirstColon?`: the characters after the first `':'`,
or `none` when there is no colon. -/
def afterColonAux : List Char → Option (List Char)
  | [] => none
  | c :: cs => if c = ':' then some cs else afterColonAux cs

/-- CPython `s.split(":", 1)[1]` as a total function: `some` of the substring
after the first colon, or `none` when `s` has no colon (in which case the
Python expression raises `IndexError`). -/
def afterFirstColon? (s : String) : Option String :=
  (afterColonAux s.data).map String.mk

/-- CPython `list.index` wrapped in `try/except ValueError`: first index of
`x` in `xs`, or `none`.  Used by `handle_signature` lines 215-219. -/
def listIndexOf : List String → String → Option Nat
  | [], _ => none
  | x :: xs, y => if x = y then some 0 else (listIndexOf xs y).map (· + 1)

/-- Floor of a rational as an integer (`q.den` is positive, so flooring
division gives the true floor). -/
def ratFloor (q : ℚ) : ℤ :=
  Int.fdiv q.num q.den

/-- Round-half-to-even on rationals, the tie-breaking rule of CPython's
built-in `round`. -/
def roundHalfEven (q : ℚ) : ℤ :=
  let f := ratFloor q
  if q - (f : ℚ) < 1/2 then f
  else if 1/2 < q - (f : ℚ) then f + 1
  else if f % 2 = 0 then f else f + 1

/-- CPython `round(q, 6)` on an exact rational value: round `q * 10^6`
half-to-even, then scale back. -/
def pyRound6 (q : ℚ) : ℚ :=
  (roundHalfEven (q * 1000000) : ℚ) / 1000000

/-- Conversion of lamports to native units, `helius_listener.py` line 226:
`sol_paid = lamports / 1e9`. -/
def lamportsToSol (lamports : ℤ) : ℚ :=
  (lamports : ℚ) / 1000000000

/-! ## Memo codec -/

/-- Memo encoding, `price_check.py` lines 46 and 97:
`memo = f"ud:{user_id} {memo_tag}"`. -/
def encodeMemo (user_id memo_tag : String) : String :=
  "ud:" ++ user_id ++ " " ++ memo_tag

/-- Result of the memo format check and token extraction. -/
inductive ParseStep where
  | badFormat
  | parsed (user_id plan : String)
deriving DecidableEq

/-- Memo token extraction, `handle_signature` lines 230-234: split on
whitespace; fewer than two tokens or a first token lacking the `ud:` prefix
is the "Unexpected memo format" drop; otherwise `user_id` is the part of the
first token after the first colon and `plan` is the second token.  (The
`none` branch of the inner match is unreachable: the guard guarantees the
first token starts with `ud:` and hence contains a colon.) -/
def parseMemo (memo_text : String) : ParseStep :=
  let parts := pySplit memo_text
  if parts.length < 2 ∨ pyStartsWith (parts.headD "") "ud:" = false then
    .badFormat
  else
    match afterFirstColon? (parts.headD "") with
    | some user_id => .parsed user_id (parts.getD 1 "")
    | none => .badFormat

/-- Outcome of classifying the decoded plan tag, `handle_signature`
lines 238-258.  `error` models the `IndexError` raised by
`plan.split(":", 1)[1]` when a non-`pl` tag has no colon; it is caught by
the blanket `except Exception` at line 295. -/
inductive DecodeResult where
  | failure
  | error
  | subscription (user_id purchase_type : String)
  | title (user_id ttype book_id : String)
deriving DecidableEq

/-- Plan-tag classification, `handle_signature` lines 238-258: a `pl`-prefixed
tag is a subscription (`pl30` → `"monthly"`, anything else → `"yearly"`);
any other tag is a title purchase (`eb:`-prefixed → `"ebook"`, else
`"audiobook"`) whose book id is the substring after the first colon — and
raises `IndexError` when that colon is absent. -/
def classifyPlan (user_id plan : String) : DecodeResult :=
  if pyStartsWith plan "pl" then
    .subscription user_id (if plan = "pl30" then "monthly" else "yearly")
  else
    match afterFirstColon? plan with
    | some book_id =>
        .title user_id (if pyStartsWith plan "eb:" then "ebook" else "audiobook") book_id
    | none => .error

/-- Full memo decoding as performed by `handle_signature` steps 4-5. -/
def decodeMemo (memo_text : String) : DecodeResult :=
  match parseMemo memo_text with
  | .badFormat => .failure
  | .parsed user_id plan => classifyPlan user_id plan

/-! ## Session encoder (`src/utils/price_check.py`) -/

/-- Subscription pricing returned by the fulfillment service's
`getSubscriptionPricing` query. -/
structure SubPricing where
  monthlyPrice : ℚ
  yearlyPrice : ℚ
deriving DecidableEq

/-- Title pricing returned by the fulfillment service's `getTitlePricing`
query (field names as in the source). -/
structure TitlePricing where
  ebook_price : ℚ
  audiobook_price : ℚ
deriving DecidableEq

/-- The fields of the session dictionary built by `create_sub_session` /
`create_title_session` that are deterministic functions of the inputs
(the `reference` is fresh randomness and the URL is its urlencoding;
both are orthogonal to the claims below). -/
structure Session where
  amount : ℚ
  label : String
  message : String
  memo : String
deriving DecidableEq

/-- `price_check.py` lines 17-67, `create_sub_session`, with the network
effects made explicit parameters: `subp` is the pricing-query result and
`sol_price` the oracle spot price.  Lines 34-39 choose price and tag by the
lowercased purchase type; line 43 converts USD to SOL with `round(·, 6)`;
line 46 builds the memo. -/
def create_sub_session (user_id purchase_type : String)
    (subp : SubPricing) (sol_price : ℚ) : Session :=
  let usdTag : ℚ × String :=
    if pyToLower purchase_type = "monthly" then (subp.monthlyPrice, "pl30")
    else (subp.yearlyPrice, "pl365")
  let amount_sol := pyRound6 (usdTag.1 / sol_price)
  { amount := amount_sol
    label := "lumedot plus"
    message := "Subscription"
    memo := encodeMemo user_id usdTag.2 }

/-- `price_check.py` lines 70-117, `create_title_session`, with the pricing
result and spot price as parameters.  Lines 85-92 choose price, tag and
message text by the lowercased purchase type. -/
def create_title_session (user_id book_id purchase_type : String)
    (pr : TitlePricing) (sol_price : ℚ) : Session :=
  let usdTagMsg : ℚ × String × String :=
    if pyToLower purchase_type = "ebook" then
      (pr.ebook_price, "eb:" ++ book_id, "eBook purchase")
    else
      (pr.audiobook_price, "au:" ++ book_id, "Audiobook purchase")
  let amount_sol := pyRound6 (usdTagMsg.1 / sol_price)
  { amount := amount_sol
    label := "lumedot title"
    message := usdTagMsg.2.2
    memo := encodeMemo user_id usdTagMsg.2.1 }

/-! ## Transaction handling (`HeliusListener.handle_signature`) -/

/-- The balance-relevant part of a resolved transaction
(`result.transaction.message.accountKeys`, `result.meta.preBalances`,
`result.meta.postBalances`). -/
structure TxResult where
  accountKeys : List String
  preBalances : List Int
  postBalances : List Int
deriving DecidableEq

/-- Merchant balance delta, `handle_signature` lines 213-221: locate the
merchant in the account list (`none` when absent — the `ValueError` drop)
and compute `postBalances[idx] - preBalances[idx]` (`none` when a balance
list is too short, where Python would raise `IndexError` into the blanket
handler). -/
def merchantDelta (merchant : String) (tx : TxResult) : Option Int :=
  match listIndexOf tx.accountKeys merchant with
  | none => none
  | some idx =>
    match tx.postBalances[idx]?, tx.preBalances[idx]? with
    | some post, some pre => some (post - pre)
    | _, _ => none

/-- The "expected" amount of the payment verifier, `handle_signature`
lines 239 and 256: `sol_expected = sol_paid` in both branches. -/
def sol_expected (sol_paid : ℚ) : ℚ :=
  sol_paid

/-- Relative deviation used by the tolerance check, line 277:
`abs(sol_paid - sol_expected) / sol_expected`. -/
def relDeviation (paid expected : ℚ) : ℚ :=
  |paid - expected| / expected

/-- A completion mutation sent to the fulfillment service, lines 241-271.
Field order follows the GraphQL text: the subscription variant carries
`(userId, subscriptionType, purchaseType, price, currency, endDate,
txSignature, reference)` and the title variant `(userId, bookId,
purchaseType, price, currency, txSignature, reference)`. -/
inductive Mutation where
  | subscription (userId subscriptionType purchaseType : String) (price : ℚ)
      (currency endDate txSignature reference : String)
  | title (userId bookId purchaseType : String) (price : ℚ)
      (currency txSignature reference : String)
deriving DecidableEq

/-- The `reference` field of a completion mutation. -/
def Mutation.reference : Mutation → String
  | .subscription _ _ _ _ _ _ _ r => r
  | .title _ _ _ _ _ _ r => r

/-- The `txSignature` field of a completion mutation. -/
def Mutation.txSig : Mutation → String
  | .subscription _ _ _ _ _ _ s _ => s
  | .title _ _ _ _ _ s _ => s

/-- Outcome of one run of `handle_signature` on an event whose memo and
transaction are already resolved.  The function is total: the blanket
`except Exception` at line 295 means no exception escapes the handler, and
`caughtError` is the image of that handler. -/
inductive HandleOutcome where
  | droppedNoMemo
  | droppedNoCredit
  | droppedBadMemo
  | caughtError
  | forwarded (m : Mutation) (warned : Bool)
deriving DecidableEq

/-- The mutation forwarded to the host API, when one is. -/
def HandleOutcome.mutation? : HandleOutcome → Option Mutation
  | .forwarded m _ => some m
  | _ => none

/-- `handle_signature` lines 190-296, from the point where the memo and the
transaction are resolved (network fetches are inputs here): a falsy
(absent or empty) memo is dropped (line 190); a missing merchant account,
short balance list or non-positive lamport delta is dropped (lines 213-224);
a malformed memo is dropped with a warning (lines 230-233); a non-`pl` tag
without a colon raises into the blanket handler; otherwise the completion
mutation is built with `sol_expected = sol_paid`, the tolerance check only
sets the warning flag (lines 273-278), and the mutation is forwarded. -/
def handleSignature (merchant signature : String) (tol : ℚ)
    (memo_text : Option String) (tx : TxResult) : HandleOutcome :=
  if memo_text.getD "" = "" then .droppedNoMemo
  else
    match merchantDelta merchant tx with
    | none => .droppedNoCredit
    | some lamports =>
      if lamports ≤ 0 then .droppedNoCredit
      else
        let sol_paid := lamportsToSol lamports
        match decodeMemo (memo_text.getD "") with
        | .failure => .droppedBadMemo
        | .error => .caughtError
        | .subscription user_id purchase_type =>
          let warned := relDeviation sol_paid (sol_expected sol_paid) > tol
          .forwarded
            (.subscription user_id "lumedot_plus" purchase_type sol_paid
              "sol" "2099-01-01" signature signature) warned
        | .title user_id ttype book_id =>
          let warned := relDeviation sol_paid (sol_expected sol_paid) > tol
          .forwarded
            (.title user_id book_id ttype sol_paid "sol" signature signature)
            warned

/-! ## Connection manager (`heartbeat`, `start`, `_connect_and_listen`) -/

/-- `HEARTBEAT_INTERVAL`, `helius_listener.py` line 29 (default). -/
def HEARTBEAT_INTERVAL : ℕ := 30

/-- `PING_TIMEOUT`, `helius_listener.py` line 30 (default). -/
def PING_TIMEOUT : ℕ := 10

/-- The fixed reconnect delay of `start`, line 93: `await asyncio.sleep(5)`. -/
def RECONNECT_DELAY : ℕ := 5

/-- Outcome of one iteration of the heartbeat loop's ping/pong exchange. -/
inductive ProbeOutcome where
  | pongReceived
  | timedOut
  | connectionClosed
  | raisedError
deriving DecidableEq

/-- Outcome of one `ws.recv()` call in the receive loop of
`_connect_and_listen`. -/
inductive RecvOutcome where
  | gotMessage
  | transportError
deriving DecidableEq

/-- `HeliusListener.heartbeat`, lines 53-83, as a function of the successive
probe outcomes: the loop keeps running only while every probe gets a pong;
`asyncio.TimeoutError` (line 74), `ConnectionClosed` (line 78) and any other
exception (line 81) each `break` out of the loop.  Returns whether the
heartbeat loop is still running after the given outcomes. -/
def heartbeatRunning : List ProbeOutcome → Bool
  | [] => true
  | .pongReceived :: rest => heartbeatRunning rest
  | _ :: _ => false

/-- One connection attempt of `_connect_and_listen`: the probe outcomes seen
by the heartbeat task (line 111, `asyncio.create_task`) and the recv outcomes
seen by the receive loop (lines 129-138).  The two run as independent tasks:
the heartbeat task's completion is never awaited or checked by the receive
loop. -/
structure ConnAttempt where
  probes : List ProbeOutcome
  recvs : List RecvOutcome
deriving DecidableEq

/-- Whether a connection attempt ends (and with it the `async with` block of
`_connect_and_listen`, the teardown observed by `start`): the receive loop
`while True: raw = await ws.recv()` exits only when a `ws.recv()` call
raises.  The heartbeat task's state does not occur in this condition — a
heartbeat `break` leaves the websocket open and the receive loop running. -/
def connectionTornDown (a : ConnAttempt) : Bool :=
  decide (RecvOutcome.transportError ∈ a.recvs)

/-- `HeliusListener.start`, lines 85-93, over a finite prefix of failed
connection attempts: every attempt that raises is followed by one fixed
`RECONNECT_DELAY` sleep and an unconditional retry (`while True` with a
blanket `except`), so the delays slept are one per failed attempt. -/
def reconnectDelays (failedAttempts : List ConnAttempt) : List ℕ :=
  failedAttempts.map (fun _ => RECONNECT_DELAY)

example : decodeMemo "ud:alice pl30" = .subscription "alice" "monthly" := by decide
example : decodeMemo "ud:alice pl365" = .subscription "alice" "yearly" := by decide
example : decodeMemo "ud:bob eb:42" = .title "bob" "ebook" "42" := by decide
example : decodeMemo "ud:bob au:7" = .title "bob" "audiobook" "7" := by decide
example : decodeMemo "garbage" = .failure := by decide
example : decodeMemo "ud:alice" = .failure := by decide

/-! ## Helper lemmas -/

/-- String append is associative (data-level list associativity). -/
theorem strAppendAssoc (a b c : String) : a ++ b ++ c = a ++ (b ++ c) := by
  apply String.ext
  show (a.data ++ b.data) ++ c.data = a.data ++ (b.data ++ c.data)
  exact List.append_assoc a.data b.data c.data

/-- Scanning a run of non-whitespace characters just accumulates them. -/
theorem pySplitAux_no_space (t : List Char) (rest acc : List Char)
    (h : ∀ c ∈ t, pyIsSpace c = false) :
    pySplitAux (t ++ rest) acc = pySplitAux rest (t.reverse ++ acc) := by
  induction t generalizing acc with
  | nil => simp
  | cons c cs ih =>
    have hc : pyIsSpace c = false := h c (List.mem_cons_self c cs)
    rw [List.cons_append]
    show (if pyIsSpace c then _ else pySplitAux (cs ++ rest) (c :: acc)) = _
    rw [hc]
    simp only [Bool.false_eq_true, if_false]
    rw [ih _ (fun x hx => h x (List.mem_cons_of_mem c hx))]
    simp [List.append_assoc]

/-- Splitting a string made of two nonempty whitespace-free tokens joined by a
single space yields exactly those two tokens. -/
theorem pySplit_two_tokens (t1 t2 : List Char)
    (h1 : ∀ c ∈ t1, pyIsSpace c = false) (h2 : ∀ c ∈ t2, pyIsSpace c = false)
    (hn1 : t1 ≠ []) (hn2 : t2 ≠ []) :
    pySplitAux (t1 ++ ' ' :: t2) [] = [String.mk t1, String.mk t2] := by
  rw [pySplitAux_no_space t1 _ [] h1, List.append_nil]
  cases hrev : t1.reverse with
  | nil =>
    rw [List.reverse_eq_nil_iff] at hrev
    exact absurd hrev hn1
  | cons a racc =>
    show (if pyIsSpace ' ' then
            (if (a :: racc).isEmpty then pySplitAux t2 []
             else String.mk (a :: racc).reverse :: pySplitAux t2 [])
          else _) = _
    rw [show pyIsSpace ' ' = true from rfl]
    simp only [if_true, List.isEmpty_cons, Bool.false_eq_true, if_false]
    rw [← hrev, List.reverse_reverse]
    have h0 : pySplitAux (t2 ++ []) [] = pySplitAux [] (t2.reverse ++ []) :=
      pySplitAux_no_space t2 [] [] h2
    rw [List.append_nil, List.append_nil] at h0
    rw [h0]
    have htail : pySplitAux [] t2.reverse = [String.mk t2] := by
      show (if t2.reverse.isEmpty then [] else [String.mk t2.reverse.reverse])
        = [String.mk t2]
      have hne : t2.reverse.isEmpty = false := by
        simp [List.isEmpty_iff, hn2]
      rw [hne]
      simp [List.reverse_reverse]
    rw [htail]

/-- Splitting an encoded memo recovers the raw tokens, provided the user id
and the tag contain no whitespace and the tag is nonempty. -/
theorem pySplit_encode (uid tag : String)
    (hu : ∀ c ∈ uid.data, pyIsSpace c = false)
    (ht : ∀ c ∈ tag.data, pyIsSpace c = false)
    (hn : tag.data ≠ []) :
    pySplit (encodeMemo uid tag) = ["ud:" ++ uid, tag] := by
  have hdata : (encodeMemo uid tag).data
      = ('u' :: 'd' :: ':' :: uid.data) ++ ' ' :: tag.data := by
    show (('u' :: 'd' :: ':' :: uid.data) ++ [' ']) ++ tag.data = _
    simp [List.append_assoc]
  have h1 : ∀ c ∈ ('u' :: 'd' :: ':' :: uid.data), pyIsSpace c = false := by
    intro c hc
    simp only [List.mem_cons] at hc
    rcases hc with rfl | rfl | rfl | hc
    · rfl
    · rfl
    · rfl
    · exact hu c hc
  rw [pySplit, hdata,
    pySplit_two_tokens _ _ h1 ht (by simp) hn]
  rfl

/-- Token extraction of an encoded memo recovers the user id and tag exactly
(whitespace-free user id, nonempty whitespace-free tag). -/
theorem parseMemo_encode (uid tag : String)
    (hu : ∀ c ∈ uid.data, pyIsSpace c = false)
    (ht : ∀ c ∈ tag.data, pyIsSpace c = false)
    (hn : tag.data ≠ []) :
    parseMemo (encodeMemo uid tag) = .parsed uid tag := by
  have hpre : pyStartsWith ("ud:" ++ uid) "ud:" = true := rfl
  have hcolon : afterFirstColon? ("ud:" ++ uid) = some uid := rfl
  simp only [parseMemo, pySplit_encode uid tag hu ht hn]
  rw [if_neg]
  · rw [show (["ud:" ++ uid, tag].headD "") = "ud:" ++ uid from rfl, hcolon]
    rfl
  · rw [show (["ud:" ++ uid, tag].headD "") = "ud:" ++ uid from rfl]
    simp [hpre]

/-- Every forwarded completion mutation carries the transaction signature in
both its `txSignature` and its `reference` field. -/
theorem forwarded_fields (merchant sig : String) (tol : ℚ)
    (memo_text : Option String) (tx : TxResult) (m : Mutation) (w : Bool)
    (h : handleSignature merchant sig tol memo_text tx = .forwarded m w) :
    m.reference = sig ∧ m.txSig = sig := by
  simp only [handleSignature] at h
  split at h
  · cases h
  · split at h
    · cases h
    · split at h
      · cases h
      · split at h
        · cases h
        · cases h
        · cases h
          exact ⟨rfl, rfl⟩
        · cases h
          exact ⟨rfl, rfl⟩

/-- The tolerance parameter influences only the warning flag: the forwarded
mutation (and whether one is forwarded at all) is the same for any two
tolerance values. -/
theorem mutation_tol_irrel (merchant sig : String) (tol1 tol2 : ℚ)
    (memo_text : Option String) (tx : TxResult) :
    (handleSignature merchant sig tol1 memo_text tx).mutation?
      = (handleSignature merchant sig tol2 memo_text tx).mutation? := by
  simp only [handleSignature]
  by_cases hm : memo_text.getD "" = ""
  · simp [hm]
  · simp only [hm, if_false]
    cases hd : merchantDelta merchant tx with
    | none => rfl
    | some lamports =>
      by_cases hl : lamports ≤ 0
      · simp [hl]
      · simp only [hl, if_false]
        cases hdec : decodeMemo (memo_text.getD "") <;>
          simp [HandleOutcome.mutation?]

/-- The outer retry loop sleeps the fixed delay once per failed attempt. -/
theorem reconnectDelays_replicate (attempts : List ConnAttempt) :
    reconnectDelays attempts = List.replicate attempts.length RECONNECT_DELAY := by
  induction attempts with
  | nil => rfl
  | cons x xs ih =>
    simp only [reconnectDelays, List.map_cons, List.length_cons,
      List.replicate_succ] at ih ⊢
    rw [ih]

/-! ## Claim theorems -/

/-- C2 (counterexample): the round-trip claim quantifies over opaque user ids,
but a user id containing whitespace breaks it — encoding `("a b", "pl30")`
gives the memo `"ud:a b pl30"`, which decodes to `("a", "b")`, not to
`("a b", "pl30")`. -/
theorem C2_counterexample :
    parseMemo (encodeMemo "a b" "pl30") = ParseStep.parsed "a" "b" ∧
    parseMemo (encodeMemo "a b" "pl30") ≠ ParseStep.parsed "a b" "pl30" := by
  decide

/-- C2 (amended): for every user id free of whitespace and every plan tag of
the forms `pl30`, `pl365`, `eb:<bookId>` or `au:<bookId>` with a
whitespace-free book id, decoding the encoded memo `"ud:<userId> <planTag>"`
recovers exactly the original user id and plan tag. -/
theorem C2_memo_roundtrip (uid tag : String)
    (hu : ∀ c ∈ uid.data, pyIsSpace c = false)
    (htag : tag = "pl30" ∨ tag = "pl365" ∨
      ∃ bid : String, (tag = "eb:" ++ bid ∨ tag = "au:" ++ bid) ∧
        ∀ c ∈ bid.data, pyIsSpace c = false) :
    parseMemo (encodeMemo uid tag) = ParseStep.parsed uid tag := by
  have h : (∀ c ∈ tag.data, pyIsSpace c = false) ∧ tag.data ≠ [] := by
    rcases htag with rfl | rfl | ⟨bid, hb, hbid⟩
    · exact ⟨by decide, by decide⟩
    · exact ⟨by decide, by decide⟩
    · rcases hb with rfl | rfl
      · refine ⟨?_, ?_⟩
        · intro c hc
          rw [show ("eb:" ++ bid).data = 'e' :: 'b' :: ':' :: bid.data from rfl] at hc
          simp only [List.mem_cons] at hc
          rcases hc with rfl | rfl | rfl | hc
          · decide
          · decide
          · decide
          · exact hbid c hc
        · rw [show ("eb:" ++ bid).data = 'e' :: 'b' :: ':' :: bid.data from rfl]
          simp
      · refine ⟨?_, ?_⟩
        · intro c hc
          rw [show ("au:" ++ bid).data = 'a' :: 'u' :: ':' :: bid.data from rfl] at hc
          simp only [List.mem_cons] at hc
          rcases hc with rfl | rfl | rfl | hc
          · decide
          · decide
          · decide
          · exact hbid c hc
        · rw [show ("au:" ++ bid).data = 'a' :: 'u' :: ':' :: bid.data from rfl]
          simp
  exact parseMemo_encode uid tag hu h.1 h.2

/-- C2 (witness): the round trip holds at the concrete pair
`("alice", "eb:42")`. -/
theorem C2_memo_roundtrip_witness :
    parseMemo (encodeMemo "alice" "eb:42") = ParseStep.parsed "alice" "eb:42" :=
  C2_memo_roundtrip "alice" "eb:42" (by decide)
    (Or.inr (Or.inr ⟨"42", Or.inl rfl, by decide⟩))

/-- C3 (counterexample): the claim says every non-`pl` tag yields a title
purchase, but a non-`pl` tag without a colon (here `"xyz"`) makes
`plan.split(":", 1)[1]` raise `IndexError` into the blanket exception handler
instead: decoding yields the error outcome, not a title purchase, and the
handler drops the event. -/
theorem C3_counterexample :
    decodeMemo "ud:alice xyz" = DecodeResult.error ∧
    handleSignature "MERCH" "SIG" (1/20) (some "ud:alice xyz")
      { accountKeys := ["MERCH"], preBalances := [0], postBalances := [5] }
      = HandleOutcome.caughtError := by
  decide

/-- C3 (amended): the second token maps as claimed on `pl`-prefixed tags
(`pl30` → monthly, anything else → yearly); a non-`pl` tag containing a colon
yields a title purchase, ebook exactly when the tag starts with `eb:` and
audiobook otherwise, with book id the substring after the first colon; a
non-`pl` tag without a colon yields the caught-error outcome.  The four
concrete examples of the claim all decode as stated. -/
theorem C3_plan_mapping (uid plan bid : String) :
    (pyStartsWith plan "pl" = true →
      classifyPlan uid plan
        = .subscription uid (if plan = "pl30" then "monthly" else "yearly")) ∧
    (pyStartsWith plan "pl" = false → afterFirstColon? plan = some bid →
      classifyPlan uid plan
        = .title uid (if pyStartsWith plan "eb:" then "ebook" else "audiobook") bid) ∧
    (pyStartsWith plan "pl" = false → afterFirstColon? plan = none →
      classifyPlan uid plan = .error) ∧
    decodeMemo "ud:alice pl30" = .subscription "alice" "monthly" ∧
    decodeMemo "ud:alice pl365" = .subscription "alice" "yearly" ∧
    decodeMemo "ud:bob eb:42" = .title "bob" "ebook" "42" ∧
    decodeMemo "ud:bob au:7" = .title "bob" "audiobook" "7" := by
  refine ⟨?_, ?_, ?_, by decide, by decide, by decide, by decide⟩
  · intro hpl
    simp [classifyPlan, hpl]
  · intro hnpl hcol
    simp [classifyPlan, hnpl, hcol]
  · intro hnpl hcol
    simp [classifyPlan, hnpl, hcol]

/-- C3 (witness): the mapping at the concrete tags `au:7` (audiobook) and
`pl365` (yearly). -/
theorem C3_plan_mapping_witness :
    classifyPlan "bob" "au:7"
      = DecodeResult.title "bob"
          (if pyStartsWith "au:7" "eb:" then "ebook" else "audiobook") "7" ∧
    classifyPlan "alice" "pl365"
      = DecodeResult.subscription "alice"
          (if "pl365" = "pl30" then "monthly" else "yearly") :=
  ⟨(C3_plan_mapping "bob" "au:7" "7").2.1 (by decide) (by decide),
   (C3_plan_mapping "alice" "pl365" "7").1 (by decide)⟩

/-- C5 (confirmed): a memo with fewer than two whitespace tokens, or whose
first token lacks the `ud:` prefix, decodes to the non-fatal failure outcome
and the handling unit forwards no completion; the embedded handler is a total
function (the blanket `except Exception` of the source), so no exception
propagates out of it. -/
theorem C5_bad_memo_dropped (memo merchant sig : String) (tol : ℚ) (tx : TxResult)
    (h : (pySplit memo).length < 2 ∨
      pyStartsWith ((pySplit memo).headD "") "ud:" = false) :
    decodeMemo memo = DecodeResult.failure ∧
    (handleSignature merchant sig tol (some memo) tx).mutation? = none := by
  have hp : parseMemo memo = .badFormat := by
    simp only [parseMemo]
    rw [if_pos h]
  have hdec : decodeMemo memo = .failure := by
    rw [decodeMemo, hp]
  refine ⟨hdec, ?_⟩
  simp only [handleSignature, Option.getD]
  by_cases hm : memo = ""
  · simp [hm, HandleOutcome.mutation?]
  · simp only [hm, if_false]
    cases hd : merchantDelta merchant tx with
    | none => rfl
    | some lamports =>
      by_cases hl : lamports ≤ 0
      · simp [hl, HandleOutcome.mutation?]
      · simp [hl, hdec, HandleOutcome.mutation?]

/-- C5 (witness): the memo `"garbage"` (a single token) is dropped and
nothing is forwarded. -/
theorem C5_bad_memo_dropped_witness :
    decodeMemo "garbage" = DecodeResult.failure ∧
    (handleSignature "MERCH" "SIG" (1/20) (some "garbage")
      { accountKeys := ["MERCH"], preBalances := [0], postBalances := [5] }).mutation?
      = none :=
  C5_bad_memo_dropped "garbage" "MERCH" "SIG" (1/20)
    { accountKeys := ["MERCH"], preBalances := [0], postBalances := [5] }
    (by decide)

/-- C4 (confirmed): the verifier's expected amount is defined to equal the
paid amount, so the relative deviation is zero (well-defined since the paid
amount is positive after the delta check), the out-of-tolerance condition is
false for any nonnegative tolerance, and the forwarded mutation (including
whether one is forwarded) does not depend on the tolerance at all. -/
theorem C4_tolerance_inert (p tol1 tol2 : ℚ) (merchant sig : String)
    (memo_text : Option String) (tx : TxResult)
    (hp : 0 < p) (htol : 0 ≤ tol1) :
    sol_expected p = p ∧
    relDeviation p (sol_expected p) = 0 ∧
    ¬ relDeviation p (sol_expected p) > tol1 ∧
    (handleSignature merchant sig tol1 memo_text tx).mutation?
      = (handleSignature merchant sig tol2 memo_text tx).mutation? := by
  have h0 : relDeviation p (sol_expected p) = 0 := by
    simp [relDeviation, sol_expected]
  refine ⟨rfl, h0, ?_, mutation_tol_irrel merchant sig tol1 tol2 memo_text tx⟩
  rw [h0]
  exact not_lt.2 htol

/-- C4 (witness): at paid amount `1/20` and the default tolerance `1/20`
(5%), the deviation is zero, no warning fires, and the forwarded mutation
matches the one computed at tolerance `0`. -/
theorem C4_tolerance_inert_witness :
    sol_expected (1/20) = (1/20 : ℚ) ∧
    relDeviation (1/20) (sol_expected (1/20)) = 0 ∧
    ¬ relDeviation (1/20) (sol_expected (1/20)) > (1/20 : ℚ) ∧
    (handleSignature "MERCH" "SIG" (1/20) (some "ud:u pl30")
      { accountKeys := ["MERCH"], preBalances := [0], postBalances := [5] }).mutation?
      = (handleSignature "MERCH" "SIG" 0 (some "ud:u pl30")
      { accountKeys := ["MERCH"], preBalances := [0], postBalances := [5] }).mutation? :=
  C4_tolerance_inert (1/20) (1/20) 0 "MERCH" "SIG" (some "ud:u pl30")
    { accountKeys := ["MERCH"], preBalances := [0], postBalances := [5] }
    (by norm_num) (by norm_num)

/-- C6 (confirmed): when the merchant account is absent from the resolved
transaction's account keys (or a balance is missing) or the merchant balance
delta is non-positive, the event is dropped and no completion mutation is
forwarded, whatever the memo. -/
theorem C6_no_credit_dropped (merchant sig : String) (tol : ℚ)
    (memo_text : Option String) (tx : TxResult)
    (h : merchantDelta merchant tx = none ∨
      ∃ d, merchantDelta merchant tx = some d ∧ d ≤ 0) :
    (handleSignature merchant sig tol memo_text tx).mutation? = none := by
  simp only [handleSignature]
  by_cases hm : memo_text.getD "" = ""
  · simp [hm, HandleOutcome.mutation?]
  · simp only [hm, if_false]
    rcases h with h | ⟨d, hd, hdle⟩
    · simp [h, HandleOutcome.mutation?]
    · simp [hd, hdle, HandleOutcome.mutation?]

/-- C6 (witness): a transaction whose account list omits the merchant is
dropped with nothing forwarded. -/
theorem C6_no_credit_dropped_witness :
    (handleSignature "MERCH" "SIG" (1/20) (some "ud:u pl30")
      { accountKeys := ["OTHER"], preBalances := [0], postBalances := [5] }).mutation?
      = none :=
  C6_no_credit_dropped "MERCH" "SIG" (1/20) (some "ud:u pl30")
    { accountKeys := ["OTHER"], preBalances := [0], postBalances := [5] }
    (Or.inl (by decide))

/-- The verifier's relative deviation is always zero, since expected is
defined to equal paid. -/
theorem relDev_self (p : ℚ) : relDeviation p (sol_expected p) = 0 := by
  simp [relDeviation, sol_expected]

/-- Evaluation rule for the handler on a subscription memo: with a nonempty
memo, a positive merchant delta, a nonnegative tolerance and a memo decoding
to a subscription, the handler forwards the subscription mutation with no
warning. -/
theorem handle_forwarded_sub (merchant sig : String) (tol : ℚ) (memo : String)
    (tx : TxResult) (lamports : ℤ) (uid ptype : String)
    (hm : ¬ memo = "")
    (hd : merchantDelta merchant tx = some lamports)
    (hl : ¬ lamports ≤ 0)
    (htol : 0 ≤ tol)
    (hdec : decodeMemo memo = .subscription uid ptype) :
    handleSignature merchant sig tol (some memo) tx
      = .forwarded
          (.subscription uid "lumedot_plus" ptype (lamportsToSol lamports)
            "sol" "2099-01-01" sig sig) false := by
  have hw : ¬ ((0 : ℚ) > tol) := not_lt.2 htol
  simp [handleSignature, Option.getD, hm, hd, hl, hdec, relDev_self, hw]

/-- Evaluation rule for the handler on a title memo, analogous to
`handle_forwarded_sub`. -/
theorem handle_forwarded_title (merchant sig : String) (tol : ℚ) (memo : String)
    (tx : TxResult) (lamports : ℤ) (uid ttype bid : String)
    (hm : ¬ memo = "")
    (hd : merchantDelta merchant tx = some lamports)
    (hl : ¬ lamports ≤ 0)
    (htol : 0 ≤ tol)
    (hdec : decodeMemo memo = .title uid ttype bid) :
    handleSignature merchant sig tol (some memo) tx
      = .forwarded
          (.title uid bid ttype (lamportsToSol lamports) "sol" sig sig) false := by
  have hw : ¬ ((0 : ℚ) > tol) := not_lt.2 htol
  simp [handleSignature, Option.getD, hm, hd, hl, hdec, relDev_self, hw]

/-- C7 (confirmed): with the merchant at index 1, preBalance 1_000_000_000
and postBalance 1_050_000_000 lamports, the resolver computes a balance delta
of 50_000_000 lamports and a paid amount of 0.05 native units, and the full
handler forwards a completion with that price. -/
theorem C7_balance_delta :
    merchantDelta "MERCH"
      { accountKeys := ["FEEPAYER", "MERCH"],
        preBalances := [7, 1000000000], postBalances := [3, 1050000000] }
      = some 50000000 ∧
    lamportsToSol 50000000 = (0.05 : ℚ) ∧
    handleSignature "MERCH" "SIG" (1/20) (some "ud:u pl30")
      { accountKeys := ["FEEPAYER", "MERCH"],
        preBalances := [7, 1000000000], postBalances := [3, 1050000000] }
      = HandleOutcome.forwarded
          (Mutation.subscription "u" "lumedot_plus" "monthly" (0.05 : ℚ)
            "sol" "2099-01-01" "SIG" "SIG") false := by
  have hsol : lamportsToSol 50000000 = (0.05 : ℚ) := by
    norm_num [lamportsToSol]
  refine ⟨by decide, hsol, ?_⟩
  have h := handle_forwarded_sub "MERCH" "SIG" (1/20) "ud:u pl30"
    { accountKeys := ["FEEPAYER", "MERCH"],
      preBalances := [7, 1000000000], postBalances := [3, 1050000000] }
    50000000 "u" "monthly" (by decide) (by decide) (by decide) (by simp) (by decide)
  rw [h, hsol]

/-- C8 (confirmed): a monthly subscription session with monthly USD price
9.99 and oracle spot price 100.0 yields `amountNative = 0.0999`
(= 999/10000) and the memo `"ud:<userId> pl30"`, for every user id and
whatever the yearly price. -/
theorem C8_monthly_session (uid : String) (yearlyPrice : ℚ) :
    (create_sub_session uid "monthly" ⟨999/100, yearlyPrice⟩ 100).amount
      = 999/10000 ∧
    (create_sub_session uid "monthly" ⟨999/100, yearlyPrice⟩ 100).memo
      = "ud:" ++ uid ++ " pl30" := by
  have hcond : (pyToLower "monthly" = "monthly") = True := by
    simp [show pyToLower "monthly" = "monthly" by decide]
  simp only [create_sub_session, hcond, if_true]
  refine ⟨?_, ?_⟩
  · show pyRound6 ((999/100 : ℚ) / 100) = 999/10000
    have hq : ((999 : ℚ)/100/100) * 1000000 = 99900 := by norm_num
    have hfloor : ratFloor 99900 = 99900 := by
      rw [ratFloor]
      norm_num
    have hround : roundHalfEven (99900 : ℚ) = 99900 := by
      simp only [roundHalfEven, hfloor]
      norm_num
    simp only [pyRound6, hq, hround]
    norm_num
  · show "ud:" ++ uid ++ " " ++ "pl30" = "ud:" ++ uid ++ " pl30"
    rw [strAppendAssoc, show (" " : String) ++ "pl30" = " pl30" by decide]

/-- Rewriting an encoded memo with a literal tag into a single-append form. -/
theorem encodeMemo_plain_tag (uid tag spTag : String)
    (h : (" " : String) ++ tag = spTag) :
    encodeMemo uid tag = "ud:" ++ uid ++ spTag := by
  show ("ud:" ++ uid) ++ " " ++ tag = ("ud:" ++ uid) ++ spTag
  rw [strAppendAssoc, h]

/-- Rewriting an encoded memo whose tag is a prefix joined to a book id. -/
theorem encodeMemo_colon_tag (uid pre bid spPre : String)
    (h : (" " : String) ++ pre = spPre) :
    encodeMemo uid (pre ++ bid) = "ud:" ++ uid ++ spPre ++ bid := by
  show ("ud:" ++ uid) ++ " " ++ (pre ++ bid) = (("ud:" ++ uid) ++ spPre) ++ bid
  rw [strAppendAssoc, ← strAppendAssoc " " pre bid, h, ← strAppendAssoc]

/-- C9 (confirmed): every forwarded completion, in both the subscription and
the title variant, carries the transaction signature as its `reference` (and
as its `txSignature`); hence two completion reports built from the same
signature carry identical references. -/
theorem C9_reference_idempotent (merchant1 merchant2 sig : String)
    (tol1 tol2 : ℚ) (memo1 memo2 : Option String) (tx1 tx2 : TxResult)
    (m1 m2 : Mutation) (w1 w2 : Bool)
    (h1 : handleSignature merchant1 sig tol1 memo1 tx1 = .forwarded m1 w1)
    (h2 : handleSignature merchant2 sig tol2 memo2 tx2 = .forwarded m2 w2) :
    m1.reference = sig ∧ m1.txSig = sig ∧ m2.reference = sig ∧
    m1.reference = m2.reference := by
  obtain ⟨r1, s1⟩ := forwarded_fields merchant1 sig tol1 memo1 tx1 m1 w1 h1
  obtain ⟨r2, _⟩ := forwarded_fields merchant2 sig tol2 memo2 tx2 m2 w2 h2
  exact ⟨r1, s1, r2, r1.trans r2.symm⟩

/-- C9 (witness): a subscription completion and a title completion built from
the same signature `"SIG"` both carry reference `"SIG"`. -/
theorem C9_reference_idempotent_witness :
    (Mutation.subscription "u" "lumedot_plus" "monthly" (lamportsToSol 5) "sol"
      "2099-01-01" "SIG" "SIG").reference = "SIG" ∧
    (Mutation.subscription "u" "lumedot_plus" "monthly" (lamportsToSol 5) "sol"
      "2099-01-01" "SIG" "SIG").txSig = "SIG" ∧
    (Mutation.title "v" "7" "audiobook" (lamportsToSol 5) "sol" "SIG" "SIG").reference
      = "SIG" ∧
    (Mutation.subscription "u" "lumedot_plus" "monthly" (lamportsToSol 5) "sol"
      "2099-01-01" "SIG" "SIG").reference
      = (Mutation.title "v" "7" "audiobook" (lamportsToSol 5) "sol" "SIG" "SIG").reference :=
  C9_reference_idempotent "MERCH" "MERCH" "SIG" (1/20) (1/20)
    (some "ud:u pl30") (some "ud:v au:7")
    { accountKeys := ["MERCH"], preBalances := [0], postBalances := [5] }
    { accountKeys := ["MERCH"], preBalances := [0], postBalances := [5] }
    (Mutation.subscription "u" "lumedot_plus" "monthly" (lamportsToSol 5) "sol"
      "2099-01-01" "SIG" "SIG")
    (Mutation.title "v" "7" "audiobook" (lamportsToSol 5) "sol" "SIG" "SIG")
    false false
    (handle_forwarded_sub "MERCH" "SIG" (1/20) "ud:u pl30"
      { accountKeys := ["MERCH"], preBalances := [0], postBalances := [5] }
      5 "u" "monthly" (by decide) (by decide) (by decide) (by simp) (by decide))
    (handle_forwarded_title "MERCH" "SIG" (1/20) "ud:v au:7"
      { accountKeys := ["MERCH"], preBalances := [0], postBalances := [5] }
      5 "v" "audiobook" "7" (by decide) (by decide) (by decide) (by simp) (by decide))

/-- C10 (confirmed): at the session-creation interface the purchase type is
matched case-insensitively (via lowercasing) and any unrecognized value falls
back to a default without any validation error: a subscription request whose
lowercased purchase type is not `"monthly"` uses the yearly price and tag
`pl365`; a title request whose lowercased purchase type is not `"ebook"` uses
the audiobook price and an `au:`-prefixed tag; the lowercased matches
`"monthly"` / `"ebook"` select the monthly price (`pl30`) and ebook price
(`eb:`-prefixed tag).  Both session builders are total functions: every
purchase type yields a session, none is rejected. -/
theorem C10_purchase_type_fallback
    (uid bid pt1 pt2 pt3 pt4 : String) (subp : SubPricing) (tp : TitlePricing)
    (sp : ℚ)
    (h1 : pyToLower pt1 ≠ "monthly") (h2 : pyToLower pt2 ≠ "ebook")
    (h3 : pyToLower pt3 = "monthly") (h4 : pyToLower pt4 = "ebook") :
    (create_sub_session uid pt1 subp sp).amount
      = pyRound6 (subp.yearlyPrice / sp) ∧
    (create_sub_session uid pt1 subp sp).memo = "ud:" ++ uid ++ " pl365" ∧
    (create_title_session uid bid pt2 tp sp).amount
      = pyRound6 (tp.audiobook_price / sp) ∧
    (create_title_session uid bid pt2 tp sp).memo = "ud:" ++ uid ++ " au:" ++ bid ∧
    (create_sub_session uid pt3 subp sp).amount
      = pyRound6 (subp.monthlyPrice / sp) ∧
    (create_sub_session uid pt3 subp sp).memo = "ud:" ++ uid ++ " pl30" ∧
    (create_title_session uid bid pt4 tp sp).amount
      = pyRound6 (tp.ebook_price / sp) ∧
    (create_title_session uid bid pt4 tp sp).memo = "ud:" ++ uid ++ " eb:" ++ bid := by
  refine ⟨by simp [create_sub_session, h1], ?_,
    by simp [create_title_session, h2], ?_,
    by simp [create_sub_session, h3], ?_,
    by simp [create_title_session, h4], ?_⟩
  · have e : (create_sub_session uid pt1 subp sp).memo = encodeMemo uid "pl365" := by
      simp [create_sub_session, h1]
    rw [e, encodeMemo_plain_tag uid "pl365" " pl365" (by decide)]
  · have e : (create_title_session uid bid pt2 tp sp).memo
        = encodeMemo uid ("au:" ++ bid) := by
      simp [create_title_session, h2]
    rw [e, encodeMemo_colon_tag uid "au:" bid " au:" (by decide)]
  · have e : (create_sub_session uid pt3 subp sp).memo = encodeMemo uid "pl30" := by
      simp [create_sub_session, h3]
    rw [e, encodeMemo_plain_tag uid "pl30" " pl30" (by decide)]
  · have e : (create_title_session uid bid pt4 tp sp).memo
        = encodeMemo uid ("eb:" ++ bid) := by
      simp [create_title_session, h4]
    rw [e, encodeMemo_colon_tag uid "eb:" bid " eb:" (by decide)]

/-- C10 (witness): `"Quarterly"` falls back to yearly, `"Hardcover"` to
audiobook, and `"MONTHLY"` / `"EBook"` match case-insensitively. -/
theorem C10_purchase_type_fallback_witness :
    (create_sub_session "u" "Quarterly" ⟨1, 2⟩ 2).amount = pyRound6 (2 / 2) ∧
    (create_sub_session "u" "Quarterly" ⟨1, 2⟩ 2).memo = "ud:" ++ "u" ++ " pl365" ∧
    (create_title_session "u" "7" "Hardcover" ⟨3, 4⟩ 2).amount = pyRound6 (4 / 2) ∧
    (create_title_session "u" "7" "Hardcover" ⟨3, 4⟩ 2).memo
      = "ud:" ++ "u" ++ " au:" ++ "7" ∧
    (create_sub_session "u" "MONTHLY" ⟨1, 2⟩ 2).amount = pyRound6 (1 / 2) ∧
    (create_sub_session "u" "MONTHLY" ⟨1, 2⟩ 2).memo = "ud:" ++ "u" ++ " pl30" ∧
    (create_title_session "u" "7" "EBook" ⟨3, 4⟩ 2).amount = pyRound6 (3 / 2) ∧
    (create_title_session "u" "7" "EBook" ⟨3, 4⟩ 2).memo
      = "ud:" ++ "u" ++ " eb:" ++ "7" := by
  have h := C10_purchase_type_fallback "u" "7" "Quarterly" "Hardcover" "MONTHLY"
    "EBook" ⟨1, 2⟩ ⟨3, 4⟩ 2 (by decide) (by decide) (by decide) (by decide)
  exact ⟨h.1, h.2.1, h.2.2.1, h.2.2.2.1, h.2.2.2.2.1, h.2.2.2.2.2.1,
    h.2.2.2.2.2.2.1, h.2.2.2.2.2.2.2⟩

/-- C1 (counterexample): a heartbeat probe timeout terminates the heartbeat
loop, but it does not tear the connection down — the receive loop keeps
running and no reconnect is scheduled as long as `ws.recv()` keeps
succeeding. -/
theorem C1_counterexample :
    heartbeatRunning [ProbeOutcome.timedOut] = false ∧
    connectionTornDown
      { probes := [ProbeOutcome.timedOut],
        recvs := [RecvOutcome.gotMessage, RecvOutcome.gotMessage] } = false := by
  decide

/-- C1 (amended): the probe timeout (default 10 s) terminates only the
heartbeat loop; the connection is torn down exactly when the receive loop
raises a transport error, after which the outer retry loop sleeps the fixed
5-second delay and retries; under sustained failure each of the ≥ 3 failed
attempts is followed by one 5-second delay, so reconnect attempts recur
without bound. -/
theorem C1_teardown_reconnect (a : ConnAttempt) (attempts : List ConnAttempt)
    (ha : RecvOutcome.transportError ∈ a.recvs) (h3 : 3 ≤ attempts.length) :
    connectionTornDown a = true ∧
    heartbeatRunning [ProbeOutcome.timedOut] = false ∧
    PING_TIMEOUT = 10 ∧
    RECONNECT_DELAY = 5 ∧
    3 ≤ (reconnectDelays attempts).length ∧
    reconnectDelays attempts = List.replicate attempts.length RECONNECT_DELAY := by
  refine ⟨?_, rfl, rfl, rfl, ?_, reconnectDelays_replicate attempts⟩
  · simp [connectionTornDown, ha]
  · simpa [reconnectDelays] using h3

/-- C1 (witness): a concrete failing attempt is torn down, and three failed
attempts produce three reconnect delays of 5 seconds each. -/
theorem C1_teardown_reconnect_witness :
    connectionTornDown { probes := [], recvs := [RecvOutcome.transportError] } = true ∧
    heartbeatRunning [ProbeOutcome.timedOut] = false ∧
    PING_TIMEOUT = 10 ∧
    RECONNECT_DELAY = 5 ∧
    3 ≤ (reconnectDelays [{ probes := [], recvs := [RecvOutcome.transportError] },
      { probes := [], recvs := [RecvOutcome.transportError] },
      { probes := [], recvs := [RecvOutcome.transportError] }]).length ∧
    reconnectDelays [{ probes := [], recvs := [RecvOutcome.transportError] },
      { probes := [], recvs := [RecvOutcome.transportError] },
      { probes := [], recvs := [RecvOutcome.transportError] }]
      = List.replicate (List.length
          [({ probes := [], recvs := [RecvOutcome.transportError] } : ConnAttempt),
           { probes := [], recvs := [RecvOutcome.transportError] },
           { probes := [], recvs := [RecvOutcome.transportError] }]) RECONNECT_DELAY :=
  C1_teardown_reconnect { probes := [], recvs := [RecvOutcome.transportError] }
    [{ probes := [], recvs := [RecvOutcome.transportError] },
     { probes := [], recvs := [RecvOutcome.transportError] },
     { probes := [], recvs := [RecvOutcome.transportError] }]
    (by decide) (by decide)
